import Mathlib

/-!
Shallow embedding of the medical-assistant chat application.

Client side (`src/components/chat/MedicalChat.tsx`): the conversation state
manager.  The React component state (`messages`, `inputMessage`, `isLoading`)
is modelled as an explicit `ChatState`.  The async `sendMessage` function is
split at its sole suspension point (the `fetch` to the relay) into
`sendMessageStart` (the synchronous prefix: the guard, the user-turn append
and the derivation of the bounded context window from the pre-append message
list captured by the closure) and `sendMessageResolve` (the continuation:
the success branch appending the assistant turn, the catch branch appending
the fixed apology turn, and the `finally` clearing the loading flag).
`Date.now()` / `new Date()` are modelled by an explicit `now : Nat` argument.

Server side (unnamed source file, a Next.js API route): `handler` embeds the
request handler.  The HTTP request is modelled as `ApiRequest`, the remote
OpenAI completion call as a `remoteResult` argument consulted only on the
path where the code reaches the call; the second component of the result is
`some prompt` exactly when the remote call is issued, carrying the prompt
message list that was sent.  JavaScript falsiness of an optional string
(`undefined` or `""`) is modelled by `strFalsy`; `String.prototype.includes`
by `strIncludes`, and `String.prototype.trim` by `jsTrim`, both implemented
by structural recursion over the character list so the kernel can evaluate
them on concrete inputs.
-/

/-- The `role` union type of a chat turn. -/
inductive Role where
  | user
  | assistant
deriving DecidableEq, Repr

/-- Serialization of `Role` to the JSON wire string. -/
def roleToString : Role → String
  | Role.user => "user"
  | Role.assistant => "assistant"

/-- The `Message` interface of `MedicalChat.tsx`: id, role, content, timestamp.
Instants are modelled as `Nat`. -/
structure Message where
  id : String
  role : Role
  content : String
  timestamp : Nat
deriving DecidableEq, Repr

/-- A `{role, content}` pair as sent over the wire: the projection of a
`Message` used for `conversationHistory`, and the shape of the prompt
messages given to the remote completion call. -/
structure ChatMsg where
  role : String
  content : String
deriving DecidableEq, Repr

/-- The React component state of `MedicalChat`. -/
structure ChatState where
  messages : List Message
  inputMessage : String
  isLoading : Bool
deriving DecidableEq, Repr

/-- Projection of a stored message to the `{role, content}` wire pair
(`msg => ({ role: msg.role, content: msg.content })`). -/
def projectMsg (m : Message) : ChatMsg :=
  { role := roleToString m.role, content := m.content }

/-- `messages.slice(-10).map(...)`: the last `min 10 length` messages of the
list, in order, projected to `{role, content}`.  JavaScript `slice(-10)`
starts at `max(length - 10, 0)`, which is `List.drop (length - 10)` with
truncated `Nat` subtraction. -/
def contextWindow (msgs : List Message) : List ChatMsg :=
  (msgs.drop (msgs.length - 10)).map projectMsg

/-- The initial welcome turn content of `MedicalChat.tsx`. -/
def welcomeText : String :=
  "**Welcome to Your AI Medical Assistant!** 🤗\n\nI\x27m here to help you with health-related questions and provide general medical guidance. Here\x27s what I can assist you with:\n\n**🩺 What I Can Help With:**\n• General health information and wellness tips\n• Symptom guidance and when to seek care\n• Nutrition and exercise recommendations  \n• Mental health and stress management\n• Medication information (general)\n• Preventive care suggestions\n\n**⚠️ Important Reminder:**\nI provide general information only and cannot replace professional medical advice. Always consult healthcare professionals for personalized care.\n\n**🚨 For Emergencies:** Call your local emergency services immediately.\n\nHow can I help you today? Feel free to ask a question or use the quick action buttons below! 💙"

/-- The initial `useState` value: one assistant welcome turn with id "1". -/
def initialState : ChatState :=
  { messages := [{ id := "1", role := Role.assistant, content := welcomeText,
                   timestamp := 0 }],
    inputMessage := "",
    isLoading := false }

/-- The fixed apology content appended by the catch branch of `sendMessage`. -/
def apologyText : String :=
  "I apologize, but I\x27m having trouble responding right now. Please try again in a moment."

/-- JavaScript `String.prototype.trim`: strip leading and trailing
whitespace.  Implemented structurally over the character list so that it
evaluates inside the kernel. -/
def jsTrim (s : String) : String :=
  ⟨((s.data.dropWhile Char.isWhitespace).reverse.dropWhile
      Char.isWhitespace).reverse⟩

/-- `textToSend = messageText || inputMessage`: JavaScript `||` falls through
on the empty string. -/
def effectiveText (messageText : Option String) (inputMessage : String) : String :=
  match messageText with
  | some t => if t.data.isEmpty then inputMessage else t
  | none => inputMessage

/-- The synchronous prefix of `sendMessage`, operating on the effective text
to send.  Returns the new state together with `some conversationHistory`
when a relay call is issued, or `(s, none)` when the guard
(`!textToSend.trim() || isLoading`) makes the call a no-op.  Note that
`conversationHistory` is computed from the closure-captured `messages`,
i.e. the list *before* the user turn was appended. -/
def sendMessageStart (textToSend : String) (now : Nat) (s : ChatState) :
    ChatState × Option (List ChatMsg) :=
  if jsTrim textToSend = "" ∨ s.isLoading = true then (s, none)
  else
    let userMessage : Message :=
      { id := toString now, role := Role.user, content := textToSend,
        timestamp := now }
    let conversationHistory := contextWindow s.messages
    ({ messages := s.messages ++ [userMessage], inputMessage := "",
       isLoading := true },
      some conversationHistory)

/-- The continuation of `sendMessage` after the relay call resolves:
`Except.ok text` is the success branch (HTTP ok with `data.message = text`),
`Except.error e` any thrown error (network failure or non-ok response).
Either way exactly one assistant turn is appended and the `finally` block
clears `isLoading`. -/
def sendMessageResolve (result : Except String String) (now : Nat)
    (s : ChatState) : ChatState :=
  match result with
  | Except.ok text =>
      { s with
        messages := s.messages ++
          [{ id := toString (now + 1), role := Role.assistant, content := text,
             timestamp := now }],
        isLoading := false }
  | Except.error _ =>
      { s with
        messages := s.messages ++
          [{ id := toString (now + 1), role := Role.assistant,
             content := apologyText, timestamp := now }],
        isLoading := false }

/-- The welcome-back content installed by `clearChat`. -/
def welcomeBackText : String :=
  "**Welcome Back!** 🤗\n\nI\x27m your AI medical assistant, ready to help with your health questions. How can I assist you today?"

/-- `clearChat`: replaces the message list with a single fresh assistant
welcome turn; touches neither `inputMessage` nor `isLoading`. -/
def clearChat (now : Nat) (s : ChatState) : ChatState :=
  { s with
    messages := [{ id := "1", role := Role.assistant,
                   content := welcomeBackText, timestamp := now }] }

/-- The fixed system instruction of the relay handler. -/
def MEDICAL_SYSTEM_PROMPT : String :=
  "You are a compassionate and knowledgeable medical AI assistant. Your responses should be visually appealing, well-structured, and easy to read while providing helpful health information.\n\nFORMATTING GUIDELINES:\n- Use emojis strategically to make responses more engaging and visual\n- Structure information with clear headings and bullet points\n- Use numbered lists for step-by-step instructions\n- Keep formatting clean and consistent - avoid extra spaces or broken lines\n- Make important information stand out with **bold text**\n- Use warm, empathetic language with appropriate medical terminology\n- Ensure proper spacing between sections\n\nRESPONSE STRUCTURE:\n1. **Empathetic Opening** 🤗 - Acknowledge their concern with care\n2. **Main Information** 📋 - Provide helpful, accurate medical information\n3. **Actionable Steps** ✅ - Clear, numbered recommendations\n4. **When to Seek Help** 🚨 - Clear guidance on medical consultation\n5. **Supportive Closing** 💙 - Encouraging and caring conclusion\n\nVISUAL ELEMENTS TO USE:\n- 🩺 for medical advice\n- 💊 for medication information\n- 🏥 for hospital/doctor visits\n- ⚠️ for warnings\n- ✅ for recommendations\n- 🌡️ for fever/temperature\n- 💧 for hydration\n- 😴 for rest\n- 🍎 for nutrition\n- 🏃‍♂️ for exercise\n- 🧠 for mental health\n- ❤️ for heart health\n- 📞 for emergency contacts\n\nMEDICAL GUIDELINES:\n- Provide evidence-based health information\n- Always emphasize this is general information only\n- Recommend professional medical consultation for serious concerns\n- Be empathetic and supportive\n- Ask clarifying questions when helpful\n- Suggest emergency care when appropriate\n- Include appropriate medical disclaimers\n- Never provide specific diagnoses\n\nFORMATTING RULES:\n- Use single line breaks within sections, double line breaks between sections\n- For bullet points, use simple \"• \" format (bullet + space)\n- For numbered lists, use \"1. \" format (number + period + space)\n- Keep bold text clean: **Text** (no extra spaces inside)\n- Place emojis at the start of headings or sections for visual appeal\n\nTONE: Caring, professional, informative, and visually engaging while maintaining medical accuracy and safety."

/-- The `usage` object reported by the remote completion call. -/
structure Usage where
  promptTokens : Nat
  completionTokens : Nat
  totalTokens : Nat
deriving DecidableEq, Repr

/-- An incoming HTTP request as seen by the handler: the method, whether
`getServerSession` finds an authenticated session, and the two body fields
(absent fields are `none`). -/
structure ApiRequest where
  method : String
  hasSession : Bool
  message : Option String
  conversationHistory : Option (List ChatMsg)
deriving DecidableEq, Repr

/-- An HTTP response: status code and `{ message, usage? }` body. -/
structure ApiResponse where
  status : Nat
  message : String
  usage : Option Usage
deriving DecidableEq, Repr

/-- JavaScript falsiness of an optional string: `undefined` or `""`. -/
def strFalsy : Option String → Bool
  | none => true
  | some s => s.data.isEmpty

/-- Does `pat` occur at the head of `l`? -/
def listStartsWith : List Char → List Char → Bool
  | [], _ => true
  | _ :: _, [] => false
  | a :: pat, b :: l => a == b && listStartsWith pat l

/-- Does `pat` occur contiguously anywhere in `l`? -/
def listContains (pat : List Char) : List Char → Bool
  | [] => pat.isEmpty
  | b :: l => listStartsWith pat (b :: l) || listContains pat l

/-- `String.prototype.includes`: the pattern occurs as a contiguous
substring. -/
def strIncludes (s pat : String) : Bool :=
  listContains pat.data s.data

/-- The catch branch of the handler: classify a thrown error by its message.
a message containing "API key" gives 401, one containing "quota" gives
429, anything else the generic 500. -/
def classifyError (e : String) : ApiResponse :=
  if strIncludes e "API key" then
    { status := 401, message := "Invalid OpenAI API key", usage := none }
  else if strIncludes e "quota" then
    { status := 429, message := "API quota exceeded", usage := none }
  else
    { status := 500, message := "Failed to get AI response. Please try again later.",
      usage := none }

/-- The API route handler.  `hasApiKey` models the truthiness of
`process.env.OPENAI_API_KEY`.  `remoteResult` models the outcome of
`openai.chat.completions.create`, consulted only on the path where the code
reaches that call: `Except.error e` a thrown error with message `e`,
`Except.ok (content, usage)` a completed call with
`completion.choices[0]?.message?.content` as an optional string.  The second
component of the result is `some prompt` exactly when the remote call was
issued, recording the prompt message list sent to it. -/
def handler (req : ApiRequest) (hasApiKey : Bool)
    (remoteResult : Except String (Option String × Option Usage)) :
    ApiResponse × Option (List ChatMsg) :=
  if req.method ≠ "POST" then
    ({ status := 405, message := "Method not allowed", usage := none }, none)
  else if req.hasSession = false then
    ({ status := 401, message := "Unauthorized", usage := none }, none)
  else
    let conversationHistory := req.conversationHistory.getD []
    if strFalsy req.message then
      ({ status := 400, message := "Message is required", usage := none }, none)
    else if hasApiKey = false then
      ({ status := 500, message := "OpenAI API key not configured", usage := none },
        none)
    else
      let message := req.message.getD ""
      let messages : List ChatMsg :=
        { role := "system", content := MEDICAL_SYSTEM_PROMPT } ::
          (conversationHistory.map
            (fun msg => { role := msg.role, content := msg.content }) ++
            [{ role := "user", content := message }])
      match remoteResult with
      | Except.ok (aiResponse, usage) =>
          if strFalsy aiResponse then
            (classifyError "No response from OpenAI", some messages)
          else
            ({ status := 200, message := aiResponse.getD "", usage := usage },
              some messages)
      | Except.error e => (classifyError e, some messages)

example : contextWindow initialState.messages =
    [{ role := "assistant", content := welcomeText }] := rfl

example : (sendMessageStart "I have a headache" 100 initialState).2 =
    some [{ role := "assistant", content := welcomeText }] := rfl

example : (sendMessageStart "   " 100 initialState).2 = none := rfl

example : strIncludes "You exceeded your current quota" "quota" = true := by decide

example : classifyError "No response from OpenAI" =
    { status := 500, message := "Failed to get AI response. Please try again later.",
      usage := none } := by decide

theorem sendMessageStart_accepted {s s' : ChatState} {text : String} {now : Nat}
    {cw : List ChatMsg}
    (h : sendMessageStart text now s = (s', some cw)) :
    s'.messages = s.messages ++
      [{ id := toString now, role := Role.user, content := text,
         timestamp := now }] ∧
    s'.isLoading = true ∧ cw = contextWindow s.messages := by
  unfold sendMessageStart at h
  split at h
  · simp at h
  · simp only [Prod.mk.injEq, Option.some.injEq] at h
    obtain ⟨h1, h2⟩ := h
    refine ⟨?_, ?_, h2.symm⟩
    · rw [← h1]
    · rw [← h1]

/-- C1: the context window captured by an accepted send is the last
`min 10 length` turns of the conversation prior to the newest user turn,
in original order, projected to `{role, content}` pairs; in particular its
length never exceeds 10. -/
theorem C1_context_window (s : ChatState) (text : String) (now : Nat)
    (s' : ChatState) (cw : List ChatMsg)
    (h : sendMessageStart text now s = (s', some cw)) :
    cw = ((s.messages.reverse.take 10).reverse).map projectMsg ∧
    cw.length = min 10 s.messages.length ∧
    cw.length ≤ 10 := by
  obtain ⟨-, -, hcw⟩ := sendMessageStart_accepted h
  subst hcw
  refine ⟨?_, ?_, ?_⟩
  · unfold contextWindow
    rw [show s.messages.drop (s.messages.length - 10) =
          List.rtake s.messages 10 from rfl,
        List.rtake_eq_reverse_take_reverse]
  · simp only [contextWindow, List.length_map, List.length_drop]
    omega
  · simp only [contextWindow, List.length_map, List.length_drop]
    omega

theorem C1_context_window_witness :
    (contextWindow initialState.messages =
      ((initialState.messages.reverse.take 10).reverse).map projectMsg) ∧
    (contextWindow initialState.messages).length =
      min 10 initialState.messages.length ∧
    (contextWindow initialState.messages).length ≤ 10 :=
  C1_context_window initialState "hi" 7 _ (contextWindow initialState.messages) rfl

/-- C2: an `appendUserTurn` with empty or whitespace-only text, or one
issued while the loading flag is set, is a no-op: the state (conversation
and pending flag) is returned unchanged and no relay call is issued. -/
theorem C2_noop_guard (s : ChatState) (text : String) (now : Nat)
    (h : jsTrim text = "" ∨ s.isLoading = true) :
    sendMessageStart text now s = (s, none) := by
  unfold sendMessageStart
  rw [if_pos h]

theorem C2_noop_guard_witness :
    sendMessageStart "   " 5 initialState = (initialState, none) :=
  C2_noop_guard initialState "   " 5 (Or.inl rfl)

/-- C3: after any accepted send, resolving the relay call — whether it
succeeded or failed — appends exactly one assistant turn (never zero, never
two), so the conversation grows by exactly two turns per accepted send. -/
theorem C3_exactly_one_resolution (s s' : ChatState) (text : String)
    (now now2 : Nat) (cw : List ChatMsg) (result : Except String String)
    (h : sendMessageStart text now s = (s', some cw)) :
    (sendMessageResolve result now2 s').messages.dropLast = s'.messages ∧
    ((sendMessageResolve result now2 s').messages.getLast?).map Message.role =
      some Role.assistant ∧
    (sendMessageResolve result now2 s').messages.length =
      s.messages.length + 2 := by
  obtain ⟨hs', -, -⟩ := sendMessageStart_accepted h
  cases result with
  | ok t =>
      refine ⟨?_, ?_, ?_⟩ <;>
        simp [sendMessageResolve, hs']
  | error e =>
      refine ⟨?_, ?_, ?_⟩ <;>
        simp [sendMessageResolve, hs']

theorem C3_exactly_one_resolution_witness :
    (sendMessageResolve (Except.ok "ok") 8
        (sendMessageStart "hi" 7 initialState).1).messages.dropLast =
      (sendMessageStart "hi" 7 initialState).1.messages ∧
    ((sendMessageResolve (Except.ok "ok") 8
        (sendMessageStart "hi" 7 initialState).1).messages.getLast?).map
      Message.role = some Role.assistant ∧
    (sendMessageResolve (Except.ok "ok") 8
        (sendMessageStart "hi" 7 initialState).1).messages.length =
      initialState.messages.length + 2 :=
  C3_exactly_one_resolution initialState _ "hi" 7 8 _ (Except.ok "ok") rfl

/-- C4: for an accepted send whose relay call fails with any error, the
final conversation is the original one plus the user turn and exactly one
assistant turn carrying the fixed apology text, and the pending flag
returns to false (Idle). -/
theorem C4_failure_apology (s s' : ChatState) (text e : String)
    (now now2 : Nat) (cw : List ChatMsg)
    (h : sendMessageStart text now s = (s', some cw)) :
    (sendMessageResolve (Except.error e) now2 s').messages =
      s.messages ++
        [{ id := toString now, role := Role.user, content := text,
           timestamp := now },
         { id := toString (now2 + 1), role := Role.assistant,
           content := apologyText, timestamp := now2 }] ∧
    (sendMessageResolve (Except.error e) now2 s').isLoading = false := by
  obtain ⟨hs', -, -⟩ := sendMessageStart_accepted h
  constructor
  · simp [sendMessageResolve, hs']
  · rfl

theorem C4_failure_apology_witness :
    (sendMessageResolve (Except.error "You exceeded your current quota") 8
        (sendMessageStart "hi" 7 initialState).1).messages =
      initialState.messages ++
        [{ id := toString 7, role := Role.user, content := "hi",
           timestamp := 7 },
         { id := toString (8 + 1), role := Role.assistant,
           content := apologyText, timestamp := 8 }] ∧
    (sendMessageResolve (Except.error "You exceeded your current quota") 8
        (sendMessageStart "hi" 7 initialState).1).isLoading = false :=
  C4_failure_apology initialState _ "hi" "You exceeded your current quota"
    7 8 _ rfl

/-- C5 counterexample: from the conversation seeded with the single welcome
turn, the context window passed to the relay by
`appendUserTurn "I have a headache"` has length 1 — the welcome turn is
included by the `slice(-10)` rule — not length 0 as the claim states. -/
theorem C5_scenario_counterexample :
    ((sendMessageStart "I have a headache" 100 initialState).2).map
      List.length = some 1 ∧
    ((sendMessageStart "I have a headache" 100 initialState).2).map
      List.length ≠ some 0 :=
  ⟨rfl, ne_of_eq_of_ne rfl (by decide)⟩

/-- C5 (amended): from the conversation seeded with the single welcome
turn, `appendUserTurn "I have a headache"` issues exactly one relay call
whose context window is the single projected welcome turn (length 1, not
0), and a simulated success with text "Try resting." yields the length-3
conversation [welcome, user:"I have a headache",
assistant:"Try resting."]. -/
theorem C5_scenario_amended :
    (sendMessageStart "I have a headache" 100 initialState).2 =
      some [{ role := "assistant", content := welcomeText }] ∧
    ((sendMessageResolve (Except.ok "Try resting.") 200
        (sendMessageStart "I have a headache" 100 initialState).1).messages.map
      (fun m => (m.role, m.content))) =
      [(Role.assistant, welcomeText), (Role.user, "I have a headache"),
       (Role.assistant, "Try resting.")] :=
  ⟨rfl, rfl⟩

/-- C8: `clearChat`, from any state and regardless of the pending flag,
yields a conversation of exactly length 1 whose single turn has the
assistant role. -/
theorem C8_reset_single_welcome (s : ChatState) (now : Nat) :
    (clearChat now s).messages.length = 1 ∧
    (clearChat now s).messages.map Message.role = [Role.assistant] :=
  ⟨rfl, rfl⟩

theorem map_wire_pair_id (hist : List ChatMsg) :
    hist.map (fun msg => ({ role := msg.role, content := msg.content } :
      ChatMsg)) = hist :=
  List.map_id hist

theorem classifyError_status_ne_400 (e : String) :
    (classifyError e).status ≠ 400 := by
  unfold classifyError
  split
  · decide
  · split
    · decide
    · decide

/-- C9: a request whose HTTP method is not POST is answered 405
"Method not allowed" regardless of session, body, configuration and remote
behavior — so before the authentication check and the body validation —
and no remote call is issued. -/
theorem C9_method_not_allowed (req : ApiRequest) (hasApiKey : Bool)
    (remoteResult : Except String (Option String × Option Usage))
    (h : req.method ≠ "POST") :
    handler req hasApiKey remoteResult =
      ({ status := 405, message := "Method not allowed", usage := none },
        none) := by
  unfold handler
  rw [if_pos h]

theorem C9_method_not_allowed_witness :
    handler { method := "GET", hasSession := false, message := none,
              conversationHistory := none } false (Except.error "boom") =
      ({ status := 405, message := "Method not allowed", usage := none },
        none) :=
  C9_method_not_allowed _ false (Except.error "boom") (by decide)

/-- C6: for every user message and context window, the relay builds the
prompt as exactly the fixed system instruction turn, then the context
window turns in their given order, then the new user turn; on success it
returns the single top response text with status 200, and a remote call
that succeeds but yields no text (absent or empty content) takes the
thrown-`EmptyResponse` path, surfacing as the generic failure body. -/
theorem C6_relay_prompt_and_result (hist : List ChatMsg) (msg text : String)
    (usage : Option Usage) (err : String)
    (hm : msg.data.isEmpty = false) (ht : text.data.isEmpty = false) :
    (handler { method := "POST", hasSession := true, message := some msg,
               conversationHistory := some hist } true (Except.error err)).2 =
      some ({ role := "system", content := MEDICAL_SYSTEM_PROMPT } ::
        (hist ++ [{ role := "user", content := msg }])) ∧
    (handler { method := "POST", hasSession := true, message := some msg,
               conversationHistory := some hist } true
        (Except.ok (some text, usage))).2 =
      some ({ role := "system", content := MEDICAL_SYSTEM_PROMPT } ::
        (hist ++ [{ role := "user", content := msg }])) ∧
    (handler { method := "POST", hasSession := true, message := some msg,
               conversationHistory := some hist } true
        (Except.ok (some text, usage))).1 =
      { status := 200, message := text, usage := usage } ∧
    (handler { method := "POST", hasSession := true, message := some msg,
               conversationHistory := some hist } true
        (Except.ok (none, usage))).1 =
      { status := 500,
        message := "Failed to get AI response. Please try again later.",
        usage := none } ∧
    (handler { method := "POST", hasSession := true, message := some msg,
               conversationHistory := some hist } true
        (Except.ok (some "", usage))).1 =
      { status := 500,
        message := "Failed to get AI response. Please try again later.",
        usage := none } := by
  refine ⟨?_, ?_, ?_, ?_, ?_⟩ <;>
    simp [handler, strFalsy, hm, ht, map_wire_pair_id] <;>
    decide

theorem C6_relay_prompt_and_result_witness :
    (handler { method := "POST", hasSession := true, message := some "hi",
               conversationHistory :=
                 some [{ role := "assistant", content := "w" }] } true
        (Except.ok (some "ok", none))).2 =
      some [{ role := "system", content := MEDICAL_SYSTEM_PROMPT },
            { role := "assistant", content := "w" },
            { role := "user", content := "hi" }] :=
  (C6_relay_prompt_and_result [{ role := "assistant", content := "w" }]
    "hi" "ok" none "boom" rfl rfl).2.1

/-- C7: the relay endpoint status mapping — 401 when unauthenticated with
no remote call issued, 400 when the message field is missing, 500 when the
API credential is not configured, 401 when the remote call rejects the
credential, 429 when the remote quota is exceeded, 500 on any other remote
failure, and 200 with `{ message, usage? }` on success; every failure
response carries a `{ message }` body. -/
theorem C7_status_codes (msg text eKey eQuota eOther : String)
    (hist : Option (List ChatMsg)) (usage : Option Usage) (hasApiKey : Bool)
    (remoteResult : Except String (Option String × Option Usage))
    (hm : msg.data.isEmpty = false) (ht : text.data.isEmpty = false)
    (hKey : strIncludes eKey "API key" = true)
    (hq1 : strIncludes eQuota "API key" = false)
    (hq2 : strIncludes eQuota "quota" = true)
    (ho1 : strIncludes eOther "API key" = false)
    (ho2 : strIncludes eOther "quota" = false) :
    handler { method := "POST", hasSession := false, message := some msg,
              conversationHistory := hist } hasApiKey remoteResult =
      ({ status := 401, message := "Unauthorized", usage := none }, none) ∧
    handler { method := "POST", hasSession := true, message := none,
              conversationHistory := hist } hasApiKey remoteResult =
      ({ status := 400, message := "Message is required", usage := none },
        none) ∧
    handler { method := "POST", hasSession := true, message := some msg,
              conversationHistory := hist } false remoteResult =
      ({ status := 500, message := "OpenAI API key not configured",
         usage := none }, none) ∧
    (handler { method := "POST", hasSession := true, message := some msg,
               conversationHistory := hist } true (Except.error eKey)).1 =
      { status := 401, message := "Invalid OpenAI API key", usage := none } ∧
    (handler { method := "POST", hasSession := true, message := some msg,
               conversationHistory := hist } true (Except.error eQuota)).1 =
      { status := 429, message := "API quota exceeded", usage := none } ∧
    (handler { method := "POST", hasSession := true, message := some msg,
               conversationHistory := hist } true (Except.error eOther)).1 =
      { status := 500,
        message := "Failed to get AI response. Please try again later.",
        usage := none } ∧
    (handler { method := "POST", hasSession := true, message := some msg,
               conversationHistory := hist } true
        (Except.ok (some text, usage))).1 =
      { status := 200, message := text, usage := usage } := by
  refine ⟨?_, ?_, ?_, ?_, ?_, ?_, ?_⟩ <;>
    simp [handler, strFalsy, classifyError, hm, ht, hKey, hq1, hq2, ho1, ho2]

theorem C7_status_codes_witness :
    handler { method := "POST", hasSession := false, message := some "hi",
              conversationHistory := none } true (Except.error "x") =
      ({ status := 401, message := "Unauthorized", usage := none }, none) :=
  (C7_status_codes "hi" "ok" "Incorrect API key provided"
    "You exceeded your current quota" "network error" none none true
    (Except.error "x") rfl rfl (by decide) (by decide) (by decide)
    (by decide) (by decide)).1

/-- C10: an authenticated POST with a non-empty message and no
`conversationHistory` field defaults the history to the empty list and
proceeds normally: when configured, the remote call is issued with the
prompt exactly [system instruction, user message]; a missing history is
never answered with 400. -/
theorem C10_default_history (msg : String)
    (remoteResult : Except String (Option String × Option Usage))
    (hasApiKey : Bool)
    (hm : msg.data.isEmpty = false) :
    (handler { method := "POST", hasSession := true, message := some msg,
               conversationHistory := none } true remoteResult).2 =
      some [{ role := "system", content := MEDICAL_SYSTEM_PROMPT },
            { role := "user", content := msg }] ∧
    (handler { method := "POST", hasSession := true, message := some msg,
               conversationHistory := none } hasApiKey remoteResult).1.status ≠
      400 := by
  constructor
  · cases remoteResult with
    | ok p =>
        obtain ⟨aiResp, usage⟩ := p
        cases aiResp with
        | none => simp [handler, strFalsy, hm]
        | some t =>
            by_cases hf : t.data.isEmpty = true <;>
              simp [handler, strFalsy, hm, hf]
    | error e => simp [handler, strFalsy, hm]
  · cases hasApiKey with
    | false => simp [handler, strFalsy, hm]
    | true =>
        cases remoteResult with
        | ok p =>
            obtain ⟨aiResp, usage⟩ := p
            cases aiResp with
            | none =>
                simp only [handler, strFalsy, hm]
                simp only [if_true, if_false, ite_true, ite_false]
                exact fun hcontra =>
                  classifyError_status_ne_400 "No response from OpenAI"
                    (by simpa using hcontra)
            | some t =>
                by_cases hf : t.data.isEmpty = true
                · simp only [handler, strFalsy, hm, hf]
                  exact fun hcontra =>
                    classifyError_status_ne_400 "No response from OpenAI"
                      (by simpa using hcontra)
                · simp [handler, strFalsy, hm, hf]
        | error e =>
            simp only [handler, strFalsy, hm]
            exact fun hcontra =>
              classifyError_status_ne_400 e (by simpa using hcontra)

theorem C10_default_history_witness :
    (handler { method := "POST", hasSession := true, message := some "hi",
               conversationHistory := none } true
        (Except.ok (some "ok", none))).2 =
      some [{ role := "system", content := MEDICAL_SYSTEM_PROMPT },
            { role := "user", content := "hi" }] ∧
    (handler { method := "POST", hasSession := true, message := some "hi",
               conversationHistory := none } true
        (Except.ok (some "ok", none))).1.status ≠ 400 :=
  C10_default_history "hi" (Except.ok (some "ok", none)) true rfl
